import Mathlib

/-!
Formal model of the conversation orchestration and lead-extraction pipeline of
the vani-ai repository (a multi-tenant call/chat support agent grounded in call
transcripts).

The embedding is a shallow translation of the Python sources:

* `src/query_transcripts.py` — `TranscriptQueryAgent` (context building and
  caching, query-language detection, the lead-capture policy, the generation
  retry loop, the user-visible failure path, lead-info extraction);
* `src/leads_db.py` — `LeadsDatabase.update_conversation` (monotonic merge of
  extracted lead fields into a stored conversation row);
* `src/app.py` — `get_agent` (the per-tenant agent registry/cache).

Python-specific behaviours that the claims depend on are modelled explicitly:
truthiness of optional strings (`None` and `""` are both falsy), and name
resolution of module globals (the module `query_transcripts.py` never binds a
global `logger`, so the bare name `logger` used on its lines 400 and 507
raises `NameError` at runtime).

Machine-level caveats of the translation: Python's `str.lower` / `str.strip` /
`re` digit and whitespace classes are modelled on the ASCII range, which is
exact for every string constant the program compares against.
-/

namespace VaniAI

/-! ### Python-semantics helpers -/

/-- Truthiness of a Python value of type `Optional[str]`: `None` and the empty
string are falsy, every other string is truthy. -/
def pyTruthy : Option String → Bool
  | none => false
  | some s => !s.isEmpty

/-- `f-string` rendering of an `Optional[str]`: `None` prints as `"None"`. -/
def pyStr : Option String → String
  | none => "None"
  | some s => s

/-- Python `str.lower()`, modelled on the ASCII range (every needle the program
searches for after lowering is pure ASCII): lowers the string code point by
code point. -/
def lowerStr (s : String) : String := String.mk (s.toList.map Char.toLower)

/-- Python's substring test `needle in hay`. -/
def containsSub (needle hay : String) : Bool :=
  decide (needle.toList <:+: hay.toList)

/-! ### `LeadsDatabase.update_conversation` (src/leads_db.py, lines 65-105)

A row of the `conversations` table.  `messages` is the JSON-serialised message
list (an opaque string here); the four extracted fields and `ended_at` are
nullable columns. -/

structure Conversation where
  session_id : String
  business_id : String
  started_at : String
  ended_at : Option String
  customer_name : Option String
  customer_phone : Option String
  language : Option String
  messages : String
  summary : Option String
  lead_classification : Option String
deriving DecidableEq

/-- `LeadsDatabase.update_conversation`: `messages` is always overwritten; each
extracted field is added to the `SET` clause only when the supplied value is
truthy (`if customer_name:` …), so `None` (and `""`) leave the stored value
unchanged; `ended_at` is set to the current time only when `ended` is true. -/
def update_conversation (conv : Conversation) (messages : String)
    (customer_name customer_phone summary lead_classification : Option String)
    (ended : Bool) (now : String) : Conversation :=
  { conv with
    messages := messages
    customer_name :=
      if pyTruthy customer_name then customer_name else conv.customer_name
    customer_phone :=
      if pyTruthy customer_phone then customer_phone else conv.customer_phone
    summary := if pyTruthy summary then summary else conv.summary
    lead_classification :=
      if pyTruthy lead_classification then lead_classification
      else conv.lead_classification
    ended_at := if ended then some now else conv.ended_at }

/-! ### Query-language detection (src/query_transcripts.py, lines 197-206) -/

/-- A code point in the Devanagari Unicode block: the Python source compares
each character of the query against the bounds U+0900 and U+097F. -/
def isDevanagari (c : Char) : Bool :=
  decide (0x0900 ≤ c.toNat) && decide (c.toNat ≤ 0x097F)

/-- `TranscriptQueryAgent._detect_query_language`. -/
def detect_query_language (query : String) : String :=
  if query.toList.any isDevanagari then "Hindi" else "English"

/-! ### Lead-capture policy (src/query_transcripts.py, lines 259-293)

The policy scans the conversation history (the current query is not yet part
of it) and chooses one of three literal instruction strings for the prompt. -/

/-- One chat message: `{"role": "user" | "assistant", "text": "..."}`. -/
structure Msg where
  role : String
  text : String
deriving DecidableEq

/-- Python `re` digit class `\d`, modelled on ASCII digits. -/
def isReDigit (c : Char) : Bool := c.isDigit

/-- Python `re` whitespace class `\s`, modelled on ASCII whitespace
(space, tab, newline, carriage return, vertical tab, form feed). -/
def isReSpace (c : Char) : Bool :=
  c == ' ' || c == '\t' || c == '\n' || c == '\r' ||
    c == Char.ofNat 11 || c == Char.ofNat 12

/-- Scanner for `re.search(r'\d{10}', s)`: trues iff the text contains ten
consecutive digit characters.  `k` counts the digits of the current run. -/
def tenDigitRun (k : Nat) : List Char → Bool
  | [] => false
  | c :: cs =>
    if isReDigit c then
      if 10 ≤ k + 1 then true else tenDigitRun (k + 1) cs
    else tenDigitRun 0 cs

/-- `re.search(r'\d{10}', s)` as a Boolean. -/
def hasTenDigits (s : String) : Bool := tenDigitRun 0 s.toList

/-- The character class `[-\s]` used between the groups of the delimited
phone pattern. -/
def isPhoneSep (c : Char) : Bool := c == '-' || isReSpace c

/-- Match of `\d{3}[-\s]\d{3}[-\s]\d{4}` anchored at the head of the list. -/
def delimPhoneAt : List Char → Bool
  | d1 :: d2 :: d3 :: s1 :: d4 :: d5 :: d6 :: s2 :: d7 :: d8 :: d9 :: d10 :: _ =>
    isReDigit d1 && isReDigit d2 && isReDigit d3 && isPhoneSep s1 &&
    isReDigit d4 && isReDigit d5 && isReDigit d6 && isPhoneSep s2 &&
    isReDigit d7 && isReDigit d8 && isReDigit d9 && isReDigit d10
  | _ => false

/-- `re.search(r'\d{3}[-\s]\d{3}[-\s]\d{4}', s)`: match at any position. -/
def delimPhoneSearch : List Char → Bool
  | [] => false
  | c :: cs => delimPhoneAt (c :: cs) || delimPhoneSearch cs

/-- `asked_for_contact`: some assistant message whose lowercased text contains
both `"name"` and `"phone"`, or both `"naam"` and `"number"`. -/
def asked_for_contact (conversation_history : List Msg) : Bool :=
  conversation_history.any fun msg =>
    msg.role == "assistant" &&
      ((containsSub "name" (lowerStr msg.text) &&
          containsSub "phone" (lowerStr msg.text)) ||
       (containsSub "naam" (lowerStr msg.text) &&
          containsSub "number" (lowerStr msg.text)))

/-- `provided_contact`: some user message matching the ten-consecutive-digit
pattern or the delimited phone pattern. -/
def provided_contact (conversation_history : List Msg) : Bool :=
  conversation_history.any fun msg =>
    msg.role == "user" &&
      (hasTenDigits msg.text || delimPhoneSearch msg.text.toList)

/-- `current_turn = user_turns + 1`: 1-based index of the current user turn
(the query being answered is not yet in the history). -/
def current_turn (conversation_history : List Msg) : Nat :=
  (conversation_history.countP fun msg => msg.role == "user") + 1

/-- Instruction chosen when the contact window is open (turns 1-2). -/
def ASK_CONTACT : String :=
  "IMPORTANT: You MUST ask for their name and phone number in this response. Say something like \x27May I have your name and number so I can better assist you?\x27"

/-- Instruction chosen when the window was missed (turn 3 onwards). -/
def MISSED_WINDOW : String :=
  "DO NOT ask for name or phone number now. Focus on the query."

/-- Instruction chosen once either contact signal is present. -/
def NEVER_ASK_AGAIN : String :=
  "**DO NOT** ask for name or phone number. We already have it or asked for it."

/-- The lead-capture branch of `TranscriptQueryAgent.answer_query`. -/
def lead_capture_instruction (conversation_history : List Msg) : String :=
  if !asked_for_contact conversation_history &&
      !provided_contact conversation_history then
    if current_turn conversation_history ≤ 2 then ASK_CONTACT
    else MISSED_WINDOW
  else NEVER_ASK_AGAIN

/-! ### Generation retry loop (src/query_transcripts.py, lines 346-396)

`answer_query` calls the model up to `max_retries = 3` times.  A failed call
is retried only when the error string marks a transient condition; before the
retry it sleeps `(attempt + 1) * 2 + random.uniform(0, 1)` seconds.  A
non-transient error is re-raised at once; after the loop the last error is
re-raised.  The sequence of call outcomes is abstracted as a function from the
attempt index, the jitter of `random.uniform(0, 1)` as a function from the
attempt index into `ℚ`. -/

/-- The transient-error test of the retry loop: `"429"`, `"503"` or `"500"` in
the error string, or `"quota"` in its lowercase form. -/
def isTransientError (e : String) : Bool :=
  containsSub "429" e || containsSub "503" e || containsSub "500" e ||
    containsSub "quota" (lowerStr e)

/-- Observable outcome of the retry loop: the final result, the number of
model calls issued, and the sleeps performed (in seconds). -/
structure RetryOutcome where
  result : Except String String
  calls : Nat
  delays : List ℚ

/-- One iteration state of `for attempt in range(max_retries)`: `idx` is the
current attempt index, `remaining` the iterations left, `last` the value of
`last_error`.  With `remaining = 0` the loop has ended and the last error is
re-raised (`last` is always set there, since the loop body either returns,
raises, or records an error). -/
def retryFrom (attempt : Nat → Except String String) (jitter : Nat → ℚ) :
    Nat → Nat → Option String → RetryOutcome
  | _, 0, last => { result := .error (last.getD ""), calls := 0, delays := [] }
  | idx, remaining + 1, _ =>
    match attempt idx with
    | .ok text => { result := .ok text, calls := 1, delays := [] }
    | .error e =>
      if isTransientError e then
        let rest := retryFrom attempt jitter (idx + 1) remaining (some e)
        { result := rest.result
          calls := rest.calls + 1
          delays := (((idx : ℚ) + 1) * 2 + jitter idx) :: rest.delays }
      else { result := .error e, calls := 1, delays := [] }

/-- The whole retry loop with `max_retries = 3`. -/
def generate_with_retry (attempt : Nat → Except String String)
    (jitter : Nat → ℚ) : RetryOutcome :=
  retryFrom attempt jitter 0 3 none

/-! ### Agent state and grounding-context builder
(src/query_transcripts.py, lines 26-82, 84-113 and 140-195)

`TranscriptQueryAgent` keeps a business config, an optional structured
knowledge base, the loaded transcript documents, the memoized model name and
the cached rendered context.  A loaded knowledge base is modelled as
`some kb`; `none` covers both an absent `knowledge_base.json` and a loaded
falsy (empty) JSON object, matching the `if self.knowledge_base:` tests. -/

/-- One `qa_pairs` entry of `knowledge_base.json` (either key may be
missing). -/
structure QAPair where
  question : Option String
  answer : Option String

/-- The `business_info` facts plus the Q&A pairs of `knowledge_base.json`. -/
structure KnowledgeBase where
  name : Option String
  location : Option String
  owner : Option String
  qa_pairs : List QAPair

/-- One loaded transcript JSON document; `none` in a field models a missing
key (the source reads every field with `dict.get`). -/
structure Transcript where
  filename : Option String
  service : Option String
  detected_language : Option String
  transcript : Option String
  transcript_original : Option String

/-- The fields of `business_config.json` read by `answer_query`. -/
structure BusinessConfig where
  owner_name : Option String
  phone : Option String
  agent_name : Option String
  business_name : Option String

/-- The mutable fields of a `TranscriptQueryAgent`. -/
structure AgentState where
  config : BusinessConfig
  knowledge_base : Option KnowledgeBase
  transcripts : List Transcript
  model_name : Option String
  cached_context : Option String

/-- A `LOCATION:`/`OWNER:` line is emitted only when the value is truthy. -/
def optLine (label : String) (v : Option String) : List String :=
  if pyTruthy v then [label ++ v.getD ""] else []

/-- One `Q:`/`A:` block of the knowledge-base rendering (a missing key prints
as Python `None`). -/
def qaBlock (item : QAPair) : String :=
  "Q: " ++ pyStr item.question ++ "\nA: " ++ pyStr item.answer ++ "\n"

/-- PRIORITY 1 of `_get_transcript_context`: render the structured knowledge
base (business facts, then the Q&A blocks), joined with newlines. -/
def renderKnowledgeBase (kb : KnowledgeBase) : String :=
  String.intercalate "\n"
    (["=== KNOWLEDGE BASE (Deduced from Call Recordings) ===",
      "BUSINESS: " ++ kb.name.getD "Rainbow Driving School"] ++
     optLine "LOCATION: " kb.location ++
     optLine "OWNER: " kb.owner ++
     ["\n=== FREQUENT QUESTIONS & ANSWERS ==="] ++
     kb.qa_pairs.map qaBlock)

/-- The text used for one transcript: the cleaned `transcript` field when it
is truthy, otherwise `transcript_original`. -/
def transcriptText (t : Transcript) : String :=
  let tt := t.transcript.getD ""
  if tt.isEmpty then t.transcript_original.getD "" else tt

/-- The lines emitted for the `i`-th transcript (1-based). -/
def renderTranscript (i : Nat) (t : Transcript) : List String :=
  let filename := t.filename.getD ("transcript_" ++ toString i)
  let service := t.service.getD "unknown"
  let lang := t.detected_language.getD "unknown"
  let text := transcriptText t
  ["\n--- Recording " ++ toString i ++ " (" ++ filename ++ ") ---",
   "Service: " ++ service ++ ", Language: " ++ lang ++ "\n"] ++
  (if text.isEmpty then [] else [text, ""])

/-- 1-based enumeration of the transcript sections. -/
def renderTranscriptsFrom (i : Nat) : List Transcript → List String
  | [] => []
  | t :: ts => renderTranscript i t ++ renderTranscriptsFrom (i + 1) ts

/-- PRIORITY 2 of `_get_transcript_context`: render the raw transcript
documents, joined with newlines. -/
def renderTranscripts (ts : List Transcript) : String :=
  String.intercalate "\n"
    (["=== TRANSCRIBED CALL RECORDINGS ===\n",
      "The following are transcriptions of business call recordings.\n",
      "Use this information to answer user queries.\n\n"] ++
     renderTranscriptsFrom 1 ts)

/-- `TranscriptQueryAgent._get_transcript_context`: returns the cached string
when it is truthy; otherwise builds from the knowledge base if one is loaded
(caching the result), else from the transcripts if any are loaded (caching the
result), else returns the sentinel string without caching. -/
def get_transcript_context (st : AgentState) : String × AgentState :=
  if pyTruthy st.cached_context then (st.cached_context.getD "", st)
  else
    match st.knowledge_base with
    | some kb =>
      let c := renderKnowledgeBase kb
      (c, { st with cached_context := some c })
    | none =>
      if st.transcripts.isEmpty then ("No transcripts available.", st)
      else
        let c := renderTranscripts st.transcripts
        (c, { st with cached_context := some c })

/-- `TranscriptQueryAgent.reload`: re-reads the config, knowledge base and
transcripts (supplied here as the freshly loaded values) and clears the
context cache; the memoized model name is kept. -/
def reload (st : AgentState) (newConfig : BusinessConfig)
    (newKB : Option KnowledgeBase) (newTranscripts : List Transcript) :
    AgentState :=
  { st with
    config := newConfig
    knowledge_base := newKB
    transcripts := newTranscripts
    cached_context := none }

/-! ### `answer_query` result shape and failure path
(src/query_transcripts.py, lines 233-415)

The three dictionaries `answer_query` can return are collapsed into one
record with optional fields (a missing dictionary key is `none`).  A Python
outcome is either a returned value or a raised exception (carried as its
display string). -/

/-- The dictionary returned by `answer_query`. -/
structure AnswerResult where
  query : String
  query_language : Option String
  answer : String
  model : Option String
  timestamp : Option String
  transcripts_used : Option Nat
  error : Option String
deriving DecidableEq

/-- Return or raise, for `answer_query`. -/
inductive PyOutcome where
  | ret : AnswerResult → PyOutcome
  | raises : String → PyOutcome
deriving DecidableEq

/-- The global names bound at module level in `query_transcripts.py`: its
imports (`os`, `sys`, `json`, `Path`, `datetime`, the typing names, `genai`,
`types`), the `GEMINI_AVAILABLE` flag, the class and `main`.  No `logger` is
ever bound and the module never imports `logging`. -/
def query_transcripts_globals : List String :=
  ["os", "sys", "json", "Path", "datetime", "List", "Dict", "Optional",
   "genai", "types", "GEMINI_AVAILABLE", "TranscriptQueryAgent", "main"]

/-- Whether a bare name resolves in the globals of `query_transcripts.py`. -/
def nameDefinedInModule (n : String) : Bool :=
  query_transcripts_globals.contains n

/-- The `NameError` raised when the bare name `logger` is evaluated. -/
def loggerNameError : String :=
  "NameError: name \x27logger\x27 is not defined"

/-- Quota-exhaustion apology, English variant (line 406). -/
def quotaApologyEnglish : String :=
  "I apologize, but I\x27m experiencing high demand right now. Please try again in a few moments or call us directly for immediate assistance."

/-- Quota-exhaustion apology, Hindi variant (line 406). -/
def quotaApologyHindi : String :=
  "अरे, अभी थोड़ी व्यस्तता है। थोड़ी देर बाद फिर से कोशिश करें या हमें सीधे फोन कर लें।"

/-- Generic technical-difficulty message, English variant (line 413). -/
def techDifficultyEnglish : String :=
  "I apologize, I\x27m having technical difficulties. Please try again or call us for assistance."

/-- Generic technical-difficulty message, Hindi variant (line 413). -/
def techDifficultyHindi : String :=
  "सॉरी, थोड़ी तकनीकी दिक्कत आ रही है। फिर से कोशिश करें या हमें कॉल करें।"

/-- The `except` block of `answer_query` (lines 398-415).  The block first
evaluates `logger.error(...)`: since `logger` is unbound in the module
globals, this raises `NameError` and the two user-facing dictionaries below
it are unreachable.  Had `logger` been bound, the answer language would be
chosen by comparing the `language` *parameter* with `"English"` (the detected
`heuristic_lang` of line 251 is never used), and `query_language` would be
that same parameter (`'language' in locals()` is always true). -/
def answer_query_except_handler (error_msg : String) (language : Option String)
    (query : String) : PyOutcome :=
  if nameDefinedInModule "logger" then
    if containsSub "429" error_msg ||
        containsSub "RESOURCE_EXHAUSTED" error_msg ||
        containsSub "quota" (lowerStr error_msg) then
      .ret { query := query, query_language := language
             answer := if language == some "English" then quotaApologyEnglish
               else quotaApologyHindi
             model := none, timestamp := none, transcripts_used := none
             error := some "quota_exceeded" }
    else
      .ret { query := query, query_language := language
             answer := if language == some "English" then techDifficultyEnglish
               else techDifficultyHindi
             model := none, timestamp := none, transcripts_used := none
             error := some "processing_error" }
  else .raises loggerNameError

/-- Python `str.strip()` (both ends), modelled on ASCII whitespace. -/
def pyStrip (s : String) : String :=
  String.mk (((s.toList.dropWhile isReSpace).reverse.dropWhile isReSpace).reverse)

/-- The language tag computed from the generated ANSWER (lines 368-372):
`"Hindi"` iff the answer contains a Devanagari code point. -/
def final_language (answer : String) : String :=
  if answer.toList.any isDevanagari then "Hindi" else "English"

/-- The success dictionary of `answer_query` (lines 374-381): the answer is
the stripped response text and `query_language` is recomputed from it. -/
def successResult (query model_name answer now : String)
    (transcripts_used : Nat) : AnswerResult :=
  { query := query, query_language := some (final_language answer)
    answer := answer, model := some model_name, timestamp := some now
    transcripts_used := some transcripts_used, error := none }

/-- The no-information dictionary of the guard clause (lines 241-246). -/
def noInfoResult (query : String) : AnswerResult :=
  { query := query, query_language := none
    answer := "No information available. Please upload recordings or documents to build the knowledge base."
    model := none, timestamp := none, transcripts_used := none
    error := some "No transcripts or KB loaded" }

/-- `TranscriptQueryAgent.answer_query`.  External effects are abstracted as
arguments: `model_init` is the outcome `_initialize_model` would produce when
no model name is memoized yet, `attempt` the per-attempt outcome of
`client.models.generate_content`, `jitter` the sampled `random.uniform(0, 1)`
values, `now` the timestamp.  The guard clause returns the no-information
dictionary when neither transcripts nor a knowledge base are loaded;
otherwise the body runs under `try` and any raised error string reaches
`answer_query_except_handler`.  (Line 251 also computes `heuristic_lang`
from the query; it is dead and does not influence the result.) -/
def answer_query (st : AgentState) (query : String) (language : Option String)
    (_conversation_history : List Msg) (model_init : Except String String)
    (attempt : Nat → Except String String) (jitter : Nat → ℚ)
    (now : String) : PyOutcome :=
  if st.transcripts.isEmpty && !st.knowledge_base.isSome then
    .ret (noInfoResult query)
  else
    match (match st.model_name with
           | some m => Except.ok m
           | none => model_init : Except String String) with
    | .error e => answer_query_except_handler e language query
    | .ok model_name =>
      match (generate_with_retry attempt jitter).result with
      | .ok raw =>
        .ret (successResult query model_name (pyStrip raw) now
          st.transcripts.length)
      | .error e => answer_query_except_handler e language query

/-! ### Lead-info extraction (src/query_transcripts.py, lines 417-515) -/

/-- The dictionary built by `extract_lead_info`. -/
structure ExtractedInfo where
  customer_name : Option String
  customer_phone : Option String
  summary : Option String
  lead_classification : Option String
deriving DecidableEq

/-- The initial all-null `extracted` dictionary (lines 482-487). -/
def emptyExtracted : ExtractedInfo :=
  { customer_name := none, customer_phone := none, summary := none
    lead_classification := none }

/-- Return or raise, for `extract_lead_info`. -/
inductive ExtractOutcome where
  | ret : ExtractedInfo → ExtractOutcome
  | raises : String → ExtractOutcome
deriving DecidableEq

/-- Python `list.startswith`-style check on code-point lists. -/
def listStartsWith : List Char → List Char → Bool
  | [], _ => true
  | _ :: _, [] => false
  | p :: ps, c :: cs => p == c && listStartsWith ps cs

/-- Python `str.startswith`. -/
def pyStartsWith (s pre : String) : Bool := listStartsWith pre.toList s.toList

/-- Replace every (non-overlapping, leftmost-first) occurrence of `pat`,
structurally by fuel; the fuel is the input length, enough because each step
consumes at least one code point (`pat` is never empty here). -/
def replaceAllFuel (pat repl : List Char) : Nat → List Char → List Char
  | 0, l => l
  | _ + 1, [] => []
  | fuel + 1, c :: cs =>
    if listStartsWith pat (c :: cs) then
      repl ++ replaceAllFuel pat repl fuel (List.drop pat.length (c :: cs))
    else c :: replaceAllFuel pat repl fuel cs

/-- Python `str.replace(pat, repl)` (replaces all occurrences). -/
def pyReplace (s pat repl : String) : String :=
  String.mk (replaceAllFuel pat.toList repl.toList s.toList.length s.toList)

/-- Python `str.split(sep)` for a one-character separator. -/
def splitOnChar (sep : Char) : List Char → List (List Char)
  | [] => [[]]
  | c :: cs =>
    match splitOnChar sep cs with
    | [] => [[]]
    | r :: rs => if c == sep then [] :: r :: rs else (c :: r) :: rs

/-- `result_text.split(chr(10))` as strings. -/
def splitLines (s : String) : List String :=
  (splitOnChar (Char.ofNat 10) s.toList).map String.mk

/-- The value stored for a `NAME:`/`PHONE:`/`SUMMARY:` line: strip the label
everywhere in the line, trim, and map the `"Not provided"` sentinel to
`None`. -/
def parseFieldValue (label : String) (line : String) : Option String :=
  let v := pyStrip (pyReplace line label "")
  if v == "Not provided" then none else some v

/-- One iteration of the parsing loop (lines 489-501): an `elif` chain keyed
on the line label; the `CLASSIFICATION:` value is stored without the
`"Not provided"` check. -/
def applyLine (extracted : ExtractedInfo) (line : String) : ExtractedInfo :=
  if pyStartsWith line "NAME:" then
    { extracted with customer_name := parseFieldValue "NAME:" line }
  else if pyStartsWith line "PHONE:" then
    { extracted with customer_phone := parseFieldValue "PHONE:" line }
  else if pyStartsWith line "SUMMARY:" then
    { extracted with summary := parseFieldValue "SUMMARY:" line }
  else if pyStartsWith line "CLASSIFICATION:" then
    { extracted with
        lead_classification := some (pyStrip (pyReplace line "CLASSIFICATION:" "")) }
  else extracted

/-- Which extracted field a line would set, following the same `elif`
chain. -/
inductive FieldTag where
  | name | phone | summary | classification
deriving DecidableEq

/-- The field selected by the `elif` chain for a line, if any. -/
def lineField (line : String) : Option FieldTag :=
  if pyStartsWith line "NAME:" then some .name
  else if pyStartsWith line "PHONE:" then some .phone
  else if pyStartsWith line "SUMMARY:" then some .summary
  else if pyStartsWith line "CLASSIFICATION:" then some .classification
  else none

/-- The line-prefix parser of `extract_lead_info`: iterate the loop body over
the lines of the (stripped) model output. -/
def parse_lead_response (result_text : String) : ExtractedInfo :=
  (splitLines result_text).foldl applyLine emptyExtracted

/-- `TranscriptQueryAgent.extract_lead_info`.  `model_name_cached` is the
memoized model name, `model_init` the outcome `_initialize_model` would
produce otherwise (it is called *outside* the `try`, so its error
propagates), `modelResponse` the outcome of the generation call.  On an empty
message list the early dictionary (which has no classification key) is
returned.  On a generation error the handler at line 507 evaluates
`logger.error(...)` first: `logger` is unbound in the module, so `NameError`
is raised and the all-null-plus-UNRELATED fallback dictionary below it is
unreachable. -/
def extract_lead_info (conversation_messages : List Msg)
    (model_name_cached : Option String) (model_init : Except String String)
    (modelResponse : Except String String) : ExtractOutcome :=
  if conversation_messages.isEmpty then
    .ret { customer_name := none, customer_phone := none
           summary := some "No conversation data", lead_classification := none }
  else
    match (match model_name_cached with
           | some m => Except.ok m
           | none => model_init : Except String String) with
    | .error e => .raises e
    | .ok _ =>
      match modelResponse with
      | .ok text => .ret (parse_lead_response (pyStrip text))
      | .error _ =>
        if nameDefinedInModule "logger" then
          .ret { customer_name := none, customer_phone := none
                 summary := some "Error during analysis - conversation data preserved"
                 lead_classification := some "UNRELATED" }
        else .raises loggerNameError

/-! ### Agent registry (src/app.py, lines 788-798, and
`TranscriptQueryAgent.__init__`, src/query_transcripts.py, lines 26-82) -/

/-- The environment `TranscriptQueryAgent.__init__` observes for one tenant:
whether the Gemini SDK imported, the `api_key` argument, the
`GEMINI_API_KEY` environment variable, and the tenant files (config file,
knowledge-base file, transcript documents), each `none`/empty when absent or
unreadable. -/
structure AgentEnv where
  gemini_available : Bool
  api_key_arg : Option String
  env_api_key : Option String
  config_file : Option BusinessConfig
  kb_file : Option KnowledgeBase
  transcript_files : List Transcript

/-- `TranscriptQueryAgent.__init__`: raises when the SDK is missing or no
truthy API key is available; every file-loading failure is caught and
swallowed, so a missing config, knowledge base or transcript directory never
fails construction — the agent simply starts with empty grounding data. -/
def agent_init (env : AgentEnv) : Except String AgentState :=
  if !env.gemini_available then
    .error "ImportError: Google Gemini SDK is required."
  else
    let api_key := if pyTruthy env.api_key_arg then env.api_key_arg
      else env.env_api_key
    if !pyTruthy api_key then
      .error "ValueError: GEMINI_API_KEY not found."
    else
      .ok { config := env.config_file.getD
              { owner_name := none, phone := none, agent_name := none
                business_name := none }
            knowledge_base := env.kb_file
            transcripts := env.transcript_files
            model_name := none
            cached_context := none }

/-- `get_agent` of src/app.py: the module-level `agents` dict is an
association list keyed by `business_id`.  A hit returns the cached agent
unchanged; a miss constructs one (the per-tenant environment is `envs
business_id`), caches it on success, and on failure returns `None` leaving
the dict unchanged. -/
def get_agent (envs : String → AgentEnv)
    (agents : List (String × AgentState)) (business_id : String) :
    Option AgentState × List (String × AgentState) :=
  match agents.lookup business_id with
  | some a => (some a, agents)
  | none =>
    match agent_init (envs business_id) with
    | .ok a => (some a, (business_id, a) :: agents)
    | .error _ => (none, agents)

/-- Whether an `Except` value is a success (Python: the constructor returned
instead of raising). -/
def isOkE {e a : Type} : Except e a → Bool
  | .ok _ => true
  | .error _ => false

/-! ### Concrete sample values used to instantiate the theorems -/

/-- An empty `business_config.json` (`self.config = \x7b\x7d`). -/
def emptyConfig : BusinessConfig :=
  { owner_name := none, phone := none, agent_name := none, business_name := none }

/-- A small loaded knowledge base. -/
def sampleKB : KnowledgeBase :=
  { name := some "Rainbow Driving School", location := some "Bangalore",
    owner := some "SavitaDevi",
    qa_pairs := [{ question := some "What are the fees?", answer := some "6000 rupees" }] }

/-- A minimal loaded knowledge base. -/
def sampleKBSmall : KnowledgeBase :=
  { name := some "Rainbow Driving School", location := none, owner := none, qa_pairs := [] }

/-- One loaded transcript document. -/
def sampleTranscript : Transcript :=
  { filename := some "call_gemini_1.json", service := some "gemini",
    detected_language := some "hi", transcript := some "We open at 9am.",
    transcript_original := none }

/-- A freshly built agent with no grounding source at all. -/
def sourcelessAgent : AgentState :=
  { config := emptyConfig, knowledge_base := none, transcripts := [],
    model_name := none, cached_context := none }

/-- A freshly built agent holding a knowledge base. -/
def kbAgent : AgentState :=
  { config := emptyConfig, knowledge_base := some sampleKB, transcripts := [],
    model_name := none, cached_context := none }

/-- A freshly built agent holding both a knowledge base and a transcript. -/
def kbAndTranscriptAgent : AgentState :=
  { config := emptyConfig, knowledge_base := some sampleKBSmall,
    transcripts := [sampleTranscript], model_name := none, cached_context := none }

/-- A freshly built agent holding one transcript and a memoized model name. -/
def transcriptAgent : AgentState :=
  { config := emptyConfig, knowledge_base := none,
    transcripts := [sampleTranscript],
    model_name := some "gemini-2.0-flash-exp", cached_context := none }

/-- An environment whose SDK and API key are present but whose grounding
files (config, knowledge base, transcripts) are all absent. -/
def envNoGrounding : AgentEnv :=
  { gemini_available := true, api_key_arg := none, env_api_key := some "test-key",
    config_file := none, kb_file := none, transcript_files := [] }

/-! ## Claim theorems -/

/-- C1: when neither the "already asked" nor the "already provided" signal
holds, the bundle instructs asking for name and phone together exactly when
the 1-based user-turn index is at most 2 and instructs not to ask on later
turns; once either signal holds the instruction is to never ask again,
irrespective of the turn index. -/
theorem lead_capture_instruction_spec (conversation_history : List Msg) :
    (asked_for_contact conversation_history = false →
      provided_contact conversation_history = false →
        ((current_turn conversation_history ≤ 2 →
            lead_capture_instruction conversation_history = ASK_CONTACT) ∧
         (2 < current_turn conversation_history →
            lead_capture_instruction conversation_history = MISSED_WINDOW))) ∧
    ((asked_for_contact conversation_history = true ∨
        provided_contact conversation_history = true) →
      lead_capture_instruction conversation_history = NEVER_ASK_AGAIN) := by
  unfold lead_capture_instruction
  constructor
  · intro ha hp
    rw [ha, hp]
    constructor
    · intro ht
      simp [ht]
    · intro ht
      simp [Nat.not_le.mpr ht]
  · intro h
    rcases h with h | h <;> rw [h] <;> simp

/-- Witness for C1: a concrete two-message history with no contact signal on
the second user turn gets the ask-now instruction, and a history whose user
message contains a ten-digit number gets the never-ask instruction. -/
theorem lead_capture_instruction_spec_witness :
    (asked_for_contact [⟨"assistant", "We open at 9am."⟩,
        ⟨"user", "What time do you open?"⟩] = false ∧
     provided_contact [⟨"assistant", "We open at 9am."⟩,
        ⟨"user", "What time do you open?"⟩] = false ∧
     current_turn [⟨"assistant", "We open at 9am."⟩,
        ⟨"user", "What time do you open?"⟩] ≤ 2 ∧
     lead_capture_instruction [⟨"assistant", "We open at 9am."⟩,
        ⟨"user", "What time do you open?"⟩] = ASK_CONTACT) ∧
    (provided_contact [⟨"user", "My number is 9876543210"⟩] = true ∧
     lead_capture_instruction [⟨"user", "My number is 9876543210"⟩] =
       NEVER_ASK_AGAIN) :=
  ⟨⟨by decide, by decide, by decide,
    ((lead_capture_instruction_spec [⟨"assistant", "We open at 9am."⟩,
        ⟨"user", "What time do you open?"⟩]).1 (by decide) (by decide)).1
      (by decide)⟩,
   ⟨by decide,
    (lead_capture_instruction_spec [⟨"user", "My number is 9876543210"⟩]).2
      (Or.inr (by decide))⟩⟩

/-- C2: for every query string, language selection returns `"Hindi"` iff the
query contains at least one code point in the Devanagari block
(U+0900–U+097F), returns `"English"` otherwise, and never selects a third
language. -/
theorem detect_query_language_spec (q : String) :
    (detect_query_language q = "Hindi" ↔
      ∃ c ∈ q.toList, 0x0900 ≤ c.toNat ∧ c.toNat ≤ 0x097F) ∧
    (detect_query_language q = "English" ↔
      ¬ ∃ c ∈ q.toList, 0x0900 ≤ c.toNat ∧ c.toNat ≤ 0x097F) ∧
    (detect_query_language q = "Hindi" ∨ detect_query_language q = "English") := by
  have hne : ("Hindi" : String) ≠ "English" := by decide
  unfold detect_query_language
  by_cases h : q.toList.any isDevanagari = true
  · rw [if_pos h]
    rw [List.any_eq_true] at h
    refine ⟨⟨fun _ => ?_, fun _ => rfl⟩, ⟨fun he => absurd he hne, fun hc => ?_⟩, Or.inl rfl⟩
    · obtain ⟨c, hc, hd⟩ := h
      simp only [isDevanagari, Bool.and_eq_true, decide_eq_true_eq] at hd
      exact ⟨c, hc, hd⟩
    · exfalso
      obtain ⟨c, hcm, hd⟩ := h
      simp only [isDevanagari, Bool.and_eq_true, decide_eq_true_eq] at hd
      exact hc ⟨c, hcm, hd⟩
  · rw [if_neg h]
    rw [List.any_eq_true] at h
    refine ⟨⟨fun he => absurd he hne.symm, fun hc => ?_⟩,
      ⟨fun _ => ?_, fun _ => rfl⟩, Or.inr rfl⟩
    · exfalso
      obtain ⟨c, hcm, hd⟩ := hc
      exact h ⟨c, hcm, by simp only [isDevanagari, Bool.and_eq_true, decide_eq_true_eq]
                          exact ⟨by exact_mod_cast hd.1, by exact_mod_cast hd.2⟩⟩
    · intro hc
      obtain ⟨c, hcm, hd⟩ := hc
      exact h ⟨c, hcm, by simp only [isDevanagari, Bool.and_eq_true, decide_eq_true_eq]
                          exact ⟨hd.1, hd.2⟩⟩

/-- C3: a later update whose extracted fields are all `None` never erases the
values captured by an earlier update — applying `update_conversation` with
fields A and then again with all four extracted fields `None` leaves the four
stored extracted values exactly as the first update left them. -/
theorem update_conversation_null_preserves (conv : Conversation)
    (m1 m2 : String) (nameA phoneA sumA clsA : Option String)
    (e1 : Bool) (t1 t2 : String) :
    (update_conversation (update_conversation conv m1 nameA phoneA sumA clsA e1 t1)
        m2 none none none none false t2).customer_name =
      (update_conversation conv m1 nameA phoneA sumA clsA e1 t1).customer_name ∧
    (update_conversation (update_conversation conv m1 nameA phoneA sumA clsA e1 t1)
        m2 none none none none false t2).customer_phone =
      (update_conversation conv m1 nameA phoneA sumA clsA e1 t1).customer_phone ∧
    (update_conversation (update_conversation conv m1 nameA phoneA sumA clsA e1 t1)
        m2 none none none none false t2).summary =
      (update_conversation conv m1 nameA phoneA sumA clsA e1 t1).summary ∧
    (update_conversation (update_conversation conv m1 nameA phoneA sumA clsA e1 t1)
        m2 none none none none false t2).lead_classification =
      (update_conversation conv m1 nameA phoneA sumA clsA e1 t1).lead_classification := by
  refine ⟨?_, ?_, ?_, ?_⟩ <;> simp [update_conversation, pyTruthy]

/-- C4: the retry loop issues between 1 and 3 model calls; every call before
the last one failed with an error classified transient (a non-transient error
is never retried); each sleep is exactly `(attempt + 1) * 2` seconds plus the
jitter of that attempt (which lies in `[0, 1)`), so the delay grows linearly
with the attempt index; a non-transient error observed on the last call issued
is the result (raised immediately); and when every attempt fails transiently,
exactly 3 calls are made and the last observed error is raised. -/
theorem generate_with_retry_spec (attempt : Nat → Except String String)
    (jitter : Nat → ℚ) (hj : ∀ n, 0 ≤ jitter n ∧ jitter n < 1) :
    1 ≤ (generate_with_retry attempt jitter).calls ∧
    (generate_with_retry attempt jitter).calls ≤ 3 ∧
    (∀ i, i + 1 < (generate_with_retry attempt jitter).calls →
      ∃ e, attempt i = Except.error e ∧ isTransientError e = true) ∧
    (generate_with_retry attempt jitter).delays =
      (List.range (generate_with_retry attempt jitter).delays.length).map
        (fun (i : Nat) => ((i : ℚ) + 1) * 2 + jitter i) ∧
    (generate_with_retry attempt jitter).delays.length ≤
      (generate_with_retry attempt jitter).calls ∧
    (∀ i : Nat, ((i : ℚ) + 1) * 2 ≤ ((i : ℚ) + 1) * 2 + jitter i ∧
      ((i : ℚ) + 1) * 2 + jitter i < ((i : ℚ) + 1) * 2 + 1) ∧
    (∀ e, attempt ((generate_with_retry attempt jitter).calls - 1) =
        Except.error e → isTransientError e = false →
      (generate_with_retry attempt jitter).result = Except.error e) ∧
    ((∀ i, i < 3 → ∃ e, attempt i = Except.error e ∧ isTransientError e = true) →
      (generate_with_retry attempt jitter).calls = 3 ∧
      ∃ e, attempt 2 = Except.error e ∧
        (generate_with_retry attempt jitter).result = Except.error e) := by
  have hjit : ∀ i : Nat, ((i : ℚ) + 1) * 2 ≤ ((i : ℚ) + 1) * 2 + jitter i ∧
      ((i : ℚ) + 1) * 2 + jitter i < ((i : ℚ) + 1) * 2 + 1 := by
    intro i
    obtain ⟨ha, hb⟩ := hj i
    constructor <;> linarith
  unfold generate_with_retry
  rcases h0 : attempt 0 with e0 | t0
  case ok =>
    have hres : retryFrom attempt jitter 0 3 none =
        { result := Except.ok t0, calls := 1, delays := [] } := by
      simp [retryFrom, h0]
    rw [hres]
    dsimp only
    refine ⟨by norm_num, by norm_num, ?_, by simp, by simp, hjit, ?_, ?_⟩
    · intro i hi; omega
    · intro e he _
      rw [show (1 : Nat) - 1 = 0 from rfl, h0] at he
      exact absurd he (by simp)
    · intro hall
      obtain ⟨e, he, -⟩ := hall 0 (by omega)
      rw [h0] at he
      exact absurd he (by simp)
  case error =>
    rcases ht0 : isTransientError e0 with _ | _
    case false =>
      have hres : retryFrom attempt jitter 0 3 none =
          { result := Except.error e0, calls := 1, delays := [] } := by
        simp [retryFrom, h0, ht0]
      rw [hres]
      dsimp only
      refine ⟨by norm_num, by norm_num, ?_, by simp, by simp, hjit, ?_, ?_⟩
      · intro i hi; omega
      · intro e he _hte
        rw [show (1 : Nat) - 1 = 0 from rfl, h0] at he
        injection he with h
        rw [h]
      · intro hall
        obtain ⟨e, he, het⟩ := hall 0 (by omega)
        rw [h0] at he
        injection he with h
        rw [← h] at het
        rw [het] at ht0
        cases ht0
    case true =>
      rcases h1 : attempt 1 with e1 | t1
      case ok =>
        have hres : retryFrom attempt jitter 0 3 none =
            { result := Except.ok t1, calls := 2,
              delays := [((0 : ℚ) + 1) * 2 + jitter 0] } := by
          simp [retryFrom, h0, ht0, h1]
        rw [hres]
        dsimp only
        refine ⟨by norm_num, by norm_num, ?_, ?_, by simp, hjit, ?_, ?_⟩
        · intro i hi
          have hi0 : i = 0 := by omega
          subst hi0
          exact ⟨e0, h0, ht0⟩
        · simp [List.range_succ]
        · intro e he _hte
          rw [show (2 : Nat) - 1 = 1 from rfl, h1] at he
          exact absurd he (by simp)
        · intro hall
          obtain ⟨e, he, -⟩ := hall 1 (by omega)
          rw [h1] at he
          exact absurd he (by simp)
      case error =>
        rcases ht1 : isTransientError e1 with _ | _
        case false =>
          have hres : retryFrom attempt jitter 0 3 none =
              { result := Except.error e1, calls := 2,
                delays := [((0 : ℚ) + 1) * 2 + jitter 0] } := by
            simp [retryFrom, h0, ht0, h1, ht1]
          rw [hres]
          dsimp only
          refine ⟨by norm_num, by norm_num, ?_, ?_, by simp, hjit, ?_, ?_⟩
          · intro i hi
            have hi0 : i = 0 := by omega
            subst hi0
            exact ⟨e0, h0, ht0⟩
          · simp [List.range_succ]
          · intro e he _hte
            rw [show (2 : Nat) - 1 = 1 from rfl, h1] at he
            injection he with h
            rw [h]
          · intro hall
            obtain ⟨e, he, het⟩ := hall 1 (by omega)
            rw [h1] at he
            injection he with h
            rw [← h] at het
            rw [het] at ht1
            cases ht1
        case true =>
          rcases h2 : attempt 2 with e2 | t2
          case ok =>
            have hres : retryFrom attempt jitter 0 3 none =
                { result := Except.ok t2, calls := 3,
                  delays := [((0 : ℚ) + 1) * 2 + jitter 0,
                    ((1 : ℚ) + 1) * 2 + jitter 1] } := by
              simp [retryFrom, h0, ht0, h1, ht1, h2]
            rw [hres]
            dsimp only
            refine ⟨by norm_num, by norm_num, ?_, ?_, by simp, hjit, ?_, ?_⟩
            · intro i hi
              rcases (by omega : i = 0 ∨ i = 1) with hi0 | hi1
              · subst hi0; exact ⟨e0, h0, ht0⟩
              · subst hi1; exact ⟨e1, h1, ht1⟩
            · simp [List.range_succ]
            · intro e he _hte
              rw [show (3 : Nat) - 1 = 2 from rfl, h2] at he
              exact absurd he (by simp)
            · intro hall
              obtain ⟨e, he, -⟩ := hall 2 (by omega)
              rw [h2] at he
              exact absurd he (by simp)
          case error =>
            rcases ht2 : isTransientError e2 with _ | _
            case false =>
              have hres : retryFrom attempt jitter 0 3 none =
                  { result := Except.error e2, calls := 3,
                    delays := [((0 : ℚ) + 1) * 2 + jitter 0,
                      ((1 : ℚ) + 1) * 2 + jitter 1] } := by
                simp [retryFrom, h0, ht0, h1, ht1, h2, ht2]
              rw [hres]
              dsimp only
              refine ⟨by norm_num, by norm_num, ?_, ?_, by simp, hjit, ?_, ?_⟩
              · intro i hi
                rcases (by omega : i = 0 ∨ i = 1) with hi0 | hi1
                · subst hi0; exact ⟨e0, h0, ht0⟩
                · subst hi1; exact ⟨e1, h1, ht1⟩
              · simp [List.range_succ]
              · intro e he _hte
                rw [show (3 : Nat) - 1 = 2 from rfl, h2] at he
                injection he with h
                rw [h]
              · intro hall
                obtain ⟨e, he, het⟩ := hall 2 (by omega)
                rw [h2] at he
                injection he with h
                rw [← h] at het
                rw [het] at ht2
                cases ht2
            case true =>
              have hres : retryFrom attempt jitter 0 3 none =
                  { result := Except.error e2, calls := 3,
                    delays := [((0 : ℚ) + 1) * 2 + jitter 0,
                      ((1 : ℚ) + 1) * 2 + jitter 1,
                      ((2 : ℚ) + 1) * 2 + jitter 2] } := by
                simp [retryFrom, h0, ht0, h1, ht1, h2, ht2]
              rw [hres]
              dsimp only
              refine ⟨by norm_num, by norm_num, ?_, ?_, by norm_num, hjit, ?_, ?_⟩
              · intro i hi
                rcases (by omega : i = 0 ∨ i = 1) with hi0 | hi1
                · subst hi0; exact ⟨e0, h0, ht0⟩
                · subst hi1; exact ⟨e1, h1, ht1⟩
              · simp [List.range_succ]
              · intro e he _hte
                rw [show (3 : Nat) - 1 = 2 from rfl, h2] at he
                injection he with h
                rw [h]
              · intro _hall
                exact ⟨rfl, e2, rfl, rfl⟩

/-- Witness for C4: a call that always reports a 429 rate-limit error is
attempted exactly 3 times and the last observed error surfaces. -/
theorem generate_with_retry_spec_witness :
    (generate_with_retry (fun _ => Except.error "429 Too Many Requests")
        (fun _ => (0 : ℚ))).calls = 3 ∧
    (generate_with_retry (fun _ => Except.error "429 Too Many Requests")
        (fun _ => (0 : ℚ))).result = Except.error "429 Too Many Requests" := by
  obtain ⟨-, -, -, -, -, -, -, hlast⟩ :=
    generate_with_retry_spec (fun _ => Except.error "429 Too Many Requests")
      (fun _ => (0 : ℚ)) (fun n => by norm_num)
  obtain ⟨hc, e, he, hr⟩ :=
    hlast (fun i _ => ⟨"429 Too Many Requests", rfl, by decide⟩)
  refine ⟨hc, ?_⟩
  injection he with h
  rw [← h] at hr
  exact hr

/-! ### Context-builder lemmas (shared) -/

/-- A truthy cache short-circuits the context builder. -/
lemma gtc_cached (st : AgentState) (h : pyTruthy st.cached_context = true) :
    get_transcript_context st = (st.cached_context.getD "", st) := by
  simp [get_transcript_context, h]

/-- With an empty cache and a loaded knowledge base, the builder renders the
knowledge base and caches it. -/
lemma gtc_kb (st : AgentState) (kb : KnowledgeBase)
    (h1 : pyTruthy st.cached_context = false)
    (h2 : st.knowledge_base = some kb) :
    get_transcript_context st =
      (renderKnowledgeBase kb,
        { st with cached_context := some (renderKnowledgeBase kb) }) := by
  simp [get_transcript_context, h1, h2]

/-- With an empty cache, no knowledge base and no transcripts, the builder
returns the sentinel and caches nothing. -/
lemma gtc_sentinel (st : AgentState)
    (h1 : pyTruthy st.cached_context = false)
    (h2 : st.knowledge_base = none) (h3 : st.transcripts = []) :
    get_transcript_context st = ("No transcripts available.", st) := by
  simp [get_transcript_context, h1, h2, h3]

/-- With an empty cache, no knowledge base and at least one transcript, the
builder renders the transcripts and caches the result. -/
lemma gtc_transcripts (st : AgentState)
    (h1 : pyTruthy st.cached_context = false)
    (h2 : st.knowledge_base = none) (h3 : st.transcripts.isEmpty = false) :
    get_transcript_context st =
      (renderTranscripts st.transcripts,
        { st with cached_context := some (renderTranscripts st.transcripts) }) := by
  simp [get_transcript_context, h1, h2, h3]

/-- C7 (counterexample): on an agent with no knowledge base and no
transcripts, rendering does **not** store anything in the cache — after a
first render `cached_context` is still `none`, so the second call cannot
return a cached string (it re-runs the builder); the outputs are nonetheless
byte-identical. -/
theorem get_transcript_context_sourceless_counterexample :
    ((get_transcript_context sourcelessAgent).2).cached_context = none ∧
    (get_transcript_context ((get_transcript_context sourcelessAgent).2)).1 =
      (get_transcript_context sourcelessAgent).1 :=
  ⟨rfl, rfl⟩

/-- C7 (amended): rendering the context twice without an intervening reload
always yields byte-identical strings and an identical post-state; whenever a
knowledge base or at least one transcript is present, the first render stores
its output in `cached_context` (so the second call returns the cached
string); when neither source is present the sentinel is recomputed instead of
cached; `reload` always clears the cached rendering, so the next render
rebuilds. -/
theorem get_transcript_context_idempotent_cached (st : AgentState) :
    ((get_transcript_context ((get_transcript_context st).2)).1 =
        (get_transcript_context st).1 ∧
      (get_transcript_context ((get_transcript_context st).2)).2 =
        (get_transcript_context st).2) ∧
    (st.cached_context = none →
      (st.knowledge_base.isSome = true ∨ st.transcripts ≠ []) →
      ((get_transcript_context st).2).cached_context =
        some (get_transcript_context st).1) ∧
    (∀ cfg newKB ts, (reload st cfg newKB ts).cached_context = none) := by
  have hreload : ∀ cfg newKB ts,
      (reload st cfg newKB ts).cached_context = none := fun _ _ _ => rfl
  rcases hc : pyTruthy st.cached_context with _ | _
  case true =>
    have h1 := gtc_cached st hc
    refine ⟨⟨by simp only [h1], by simp only [h1]⟩, ?_, hreload⟩
    intro hnone
    rw [hnone] at hc
    simp [pyTruthy] at hc
  case false =>
    rcases hkb : st.knowledge_base with _ | kb
    case some =>
      have h1 := gtc_kb st kb hc hkb
      by_cases he : (renderKnowledgeBase kb).isEmpty
      · have h2 := gtc_kb { st with cached_context := some (renderKnowledgeBase kb) }
          kb (by simp [pyTruthy, he]) (by simpa using hkb)
        refine ⟨⟨?_, ?_⟩, ?_, hreload⟩
        · simp only [h1]
          simp only [h2]
        · simp only [h1]
          simp only [h2]
        · intro _ _
          simp only [h1]
      · have h2 := gtc_cached { st with cached_context := some (renderKnowledgeBase kb) }
          (by simp [pyTruthy, he])
        refine ⟨⟨?_, ?_⟩, ?_, hreload⟩
        · simp only [h1]
          simp only [h2]
          simp
        · simp only [h1]
          simp only [h2]
        · intro _ _
          simp only [h1]
    case none =>
      rcases hts : st.transcripts with _ | ⟨t, ts⟩
      case nil =>
        have h1 := gtc_sentinel st hc hkb hts
        refine ⟨⟨by simp only [h1], by simp only [h1]⟩, ?_, hreload⟩
        intro _ hsrc
        rcases hsrc with h | h
        · simp at h
        · exact absurd rfl h
      case cons =>
        have hne : st.transcripts.isEmpty = false := by rw [hts]; rfl
        have h1 := gtc_transcripts st hc hkb hne
        by_cases he : (renderTranscripts st.transcripts).isEmpty
        · have h2 := gtc_transcripts
            { st with cached_context := some (renderTranscripts st.transcripts) }
            (by simp [pyTruthy, he]) (by simpa using hkb) (by simpa using hne)
          refine ⟨⟨?_, ?_⟩, ?_, hreload⟩
          · simp only [h1]
            simp only [h2]
          · simp only [h1]
            simp only [h2]
          · intro _ _
            simp only [h1]
        · have h2 := gtc_cached
            { st with cached_context := some (renderTranscripts st.transcripts) }
            (by simp [pyTruthy, he])
          refine ⟨⟨?_, ?_⟩, ?_, hreload⟩
          · simp only [h1]
            simp only [h2]
            simp
          · simp only [h1]
            simp only [h2]
          · intro _ _
            simp only [h1]

/-- Witness for C7 (amended): a concrete agent holding one knowledge base has
its first rendering cached. -/
theorem get_transcript_context_idempotent_cached_witness :
    ((get_transcript_context kbAgent).2).cached_context =
      some (get_transcript_context kbAgent).1 :=
  (get_transcript_context_idempotent_cached kbAgent).2.1 rfl (Or.inl rfl)

/-- C8: with an empty cache, the rendered grounding context comes from the
structured knowledge base whenever one is loaded — the raw transcripts are
ignored entirely (any transcript list yields the same rendering); only with
no knowledge base is it built from the transcript documents (whose text
prefers the cleaned `transcript` field and falls back to the original); with
neither source, rendering returns the sentinel string, and `answer_query`
returns the no-information dictionary instead of raising. -/
theorem grounding_source_selection (st : AgentState)
    (hc : st.cached_context = none) :
    (∀ kb, st.knowledge_base = some kb →
      (get_transcript_context st).1 = renderKnowledgeBase kb ∧
      ∀ ts, (get_transcript_context { st with transcripts := ts }).1 =
        renderKnowledgeBase kb) ∧
    (st.knowledge_base = none → st.transcripts ≠ [] →
      (get_transcript_context st).1 = renderTranscripts st.transcripts) ∧
    (st.knowledge_base = none → st.transcripts = [] →
      (get_transcript_context st).1 = "No transcripts available.") ∧
    (∀ t s, t.transcript = some s → s ≠ "" → transcriptText t = s) ∧
    (∀ t, pyTruthy t.transcript = false →
      transcriptText t = t.transcript_original.getD "") ∧
    (∀ query language history mi gen jit now,
      st.knowledge_base = none → st.transcripts = [] →
      answer_query st query language history mi gen jit now =
        PyOutcome.ret (noInfoResult query)) := by
  have hcf : pyTruthy st.cached_context = false := by rw [hc]; rfl
  refine ⟨?_, ?_, ?_, ?_, ?_, ?_⟩
  · intro kb hkb
    constructor
    · simp only [gtc_kb st kb hcf hkb]
    · intro ts
      simp only [gtc_kb { st with transcripts := ts } kb
        (by simpa using hcf) (by simpa using hkb)]
  · intro hkb hts
    have hne : st.transcripts.isEmpty = false := by
      cases h : st.transcripts with
      | nil => exact absurd h hts
      | cons a l => rfl
    simp only [gtc_transcripts st hcf hkb hne]
  · intro hkb hts
    simp only [gtc_sentinel st hcf hkb hts]
  · intro t s hts hs
    unfold transcriptText
    rw [hts]
    simp only [Option.getD_some]
    rw [if_neg (by simpa [String.isEmpty_iff] using hs)]
  · intro t ht
    cases hf : t.transcript with
    | none =>
      have h0 : ("" : String).isEmpty = true := rfl
      simp [transcriptText, hf, h0]
    | some s =>
      rw [hf] at ht
      have hse : s.isEmpty = true := by simpa [pyTruthy] using ht
      simp [transcriptText, hf, hse]
  · intro query language history mi gen jit now hkb hts
    unfold answer_query
    rw [if_pos (by simp [hkb, hts])]

/-- Witness for C8: on a concrete agent with both a knowledge base and a
transcript, the rendering equals the knowledge-base rendering; on a concrete
sourceless agent, `answer_query` returns the no-information dictionary. -/
theorem grounding_source_selection_witness :
    (get_transcript_context kbAndTranscriptAgent).1 =
      renderKnowledgeBase sampleKBSmall ∧
    answer_query sourcelessAgent "Hi" none [] (Except.ok "gemini-2.0-flash-exp")
      (fun _ => Except.ok "Hello!") (fun _ => 0) "2025-01-01" =
      PyOutcome.ret (noInfoResult "Hi") :=
  ⟨((grounding_source_selection kbAndTranscriptAgent rfl).1 sampleKBSmall rfl).1,
   (grounding_source_selection sourcelessAgent rfl).2.2.2.2.2
     "Hi" none [] (Except.ok "gemini-2.0-flash-exp")
     (fun _ => Except.ok "Hello!") (fun _ => 0) "2025-01-01" rfl rfl⟩

/-- C5 (code bug): when the answer path fails, `answer_query` does not return
a language-matched apology — it raises.  The `except` handler first evaluates
`logger.error(...)`, and `logger` is not bound anywhere in
`query_transcripts.py` (no `import logging`, no assignment; the `logger`
defined in `app.py` lives in that module's own namespace), so the handler
itself raises `NameError` before either user-facing dictionary is built.
This holds both for a non-transient failure and for quota exhaustion after
the three transient retries.  Even the unreachable dictionaries pick the
message language from the `language` parameter (`None` in the app's call),
not from the detected query language: `heuristic_lang` is never used. -/
theorem answer_query_failure_raises_name_error :
    answer_query transcriptAgent "What time do you open?" none []
        (Except.ok "gemini-2.0-flash-exp")
        (fun _ => Except.error "400 INVALID_ARGUMENT") (fun _ => 0)
        "2025-01-01T00:00:00" = PyOutcome.raises loggerNameError ∧
    answer_query transcriptAgent "What time do you open?" none []
        (Except.ok "gemini-2.0-flash-exp")
        (fun _ => Except.error "429 RESOURCE_EXHAUSTED: quota exceeded")
        (fun _ => 0) "2025-01-01T00:00:00" = PyOutcome.raises loggerNameError ∧
    nameDefinedInModule "logger" = false ∧
    answer_query_except_handler "429 RESOURCE_EXHAUSTED: quota exceeded" none
        "What time do you open?" = PyOutcome.raises loggerNameError :=
  ⟨rfl, rfl, rfl, rfl⟩

/-- C10: on a successful generation the `query_language` field of the
returned dictionary is computed from the generated ANSWER, not from the
query: it is `"Hindi"` iff the (stripped) answer contains a Devanagari code
point and `"English"` otherwise, and the same result is returned for every
query string. -/
theorem answer_query_language_from_answer (st : AgentState) (query : String)
    (language : Option String) (history : List Msg)
    (model_init : Except String String) (attempt : Nat → Except String String)
    (jitter : Nat → ℚ) (now m raw : String)
    (hsrc : (st.transcripts.isEmpty && !st.knowledge_base.isSome) = false)
    (hm : st.model_name = some m)
    (hgen : (generate_with_retry attempt jitter).result = Except.ok raw) :
    answer_query st query language history model_init attempt jitter now =
      PyOutcome.ret
        (successResult query m (pyStrip raw) now st.transcripts.length) ∧
    (final_language (pyStrip raw) = "Hindi" ↔
      (pyStrip raw).toList.any isDevanagari = true) ∧
    (final_language (pyStrip raw) = "Hindi" ∨
      final_language (pyStrip raw) = "English") ∧
    (∀ q2, answer_query st q2 language history model_init attempt jitter now =
      PyOutcome.ret
        (successResult q2 m (pyStrip raw) now st.transcripts.length)) ∧
    (successResult query m (pyStrip raw) now st.transcripts.length).query_language =
      some (final_language (pyStrip raw)) := by
  have hmain : ∀ q2,
      answer_query st q2 language history model_init attempt jitter now =
        PyOutcome.ret
          (successResult q2 m (pyStrip raw) now st.transcripts.length) := by
    intro q2
    unfold answer_query
    rw [hsrc, hm]
    simp only [Bool.false_eq_true, if_false, hgen]
  refine ⟨hmain query, ?_, ?_, hmain, rfl⟩
  · unfold final_language
    by_cases h : (pyStrip raw).toList.any isDevanagari = true
    · simp [h]
    · rw [if_neg (by simpa using h)]
      constructor
      · intro he
        exact absurd he (by decide)
      · intro hc
        exact absurd hc h
  · unfold final_language
    by_cases h : (pyStrip raw).toList.any isDevanagari = true
    · rw [if_pos h]
      exact Or.inl rfl
    · rw [if_neg (by simpa using h)]
      exact Or.inr rfl

/-- Witness for C10: a Devanagari answer to a Latin-script query is tagged
Hindi. -/
theorem answer_query_language_from_answer_witness :
    answer_query transcriptAgent "What are the fees?" none []
        (Except.ok "gemini-2.0-flash-exp")
        (fun _ => Except.ok " नमस्ते जी, फीस 6000 रुपये है। ") (fun _ => 0)
        "2025-01-01T00:00:00" =
      PyOutcome.ret (successResult "What are the fees?" "gemini-2.0-flash-exp"
        (pyStrip " नमस्ते जी, फीस 6000 रुपये है। ") "2025-01-01T00:00:00" 1) ∧
    final_language (pyStrip " नमस्ते जी, फीस 6000 रुपये है। ") = "Hindi" :=
  ⟨(answer_query_language_from_answer transcriptAgent "What are the fees?"
      none [] (Except.ok "gemini-2.0-flash-exp")
      (fun _ => Except.ok " नमस्ते जी, फीस 6000 रुपये है। ") (fun _ => 0)
      "2025-01-01T00:00:00" "gemini-2.0-flash-exp"
      " नमस्ते जी, फीस 6000 रुपये है। " rfl rfl rfl).1,
   by decide⟩

/-! ### Lead-extraction parsing lemmas (shared) -/

/-- A line matching none of the four labels leaves the extraction dictionary
unchanged. -/
lemma applyLine_eq_of_field_none (line : String) (h : lineField line = none)
    (e : ExtractedInfo) : applyLine e line = e := by
  unfold applyLine
  unfold lineField at h
  split_ifs at h ⊢
  all_goals simp_all

/-- The loop body, characterised by the field its line selects. -/
lemma applyLine_char (e : ExtractedInfo) (l : String) :
    applyLine e l =
      match lineField l with
      | some .name => { e with customer_name := parseFieldValue "NAME:" l }
      | some .phone => { e with customer_phone := parseFieldValue "PHONE:" l }
      | some .summary => { e with summary := parseFieldValue "SUMMARY:" l }
      | some .classification =>
          { e with lead_classification := some (pyStrip (pyReplace l "CLASSIFICATION:" "")) }
      | none => e := by
  unfold applyLine lineField
  split_ifs
  all_goals rfl

/-- Two lines selecting different fields (or none) commute through the
parsing loop. -/
lemma applyLine_comm (x y : String) (h : lineField x ≠ lineField y)
    (z : ExtractedInfo) :
    applyLine (applyLine z x) y = applyLine (applyLine z y) x := by
  obtain ⟨n, p, s, c⟩ := z
  rcases hx : lineField x with _ | tx <;> rcases hy : lineField y with _ | ty
  · simp [applyLine_char, hx, hy]
  · simp [applyLine_char, hx, hy]
  · simp [applyLine_char, hx, hy]
  · rw [hx, hy] at h
    have hne : tx ≠ ty := fun hh => h (by rw [hh])
    cases tx <;> cases ty <;>
      first
        | exact absurd rfl hne
        | simp [applyLine_char, hx, hy]

/-- Folding the loop body over lines that match no label is the identity. -/
lemma foldl_applyLine_of_all_none (ls : List String) (e : ExtractedInfo)
    (h : ∀ l ∈ ls, lineField l = none) : ls.foldl applyLine e = e := by
  induction ls generalizing e with
  | nil => rfl
  | cons a as ih =>
    rw [List.foldl_cons, applyLine_eq_of_field_none a (h a (by simp)) e]
    exact ih e fun l hl => h l (by simp [hl])

/-- C6 (counterexample): a successfully returned but unparseable model output
(no `NAME:`/`PHONE:`/`SUMMARY:`/`CLASSIFICATION:` line) makes
`extract_lead_info` return the all-null dictionary whose classification is
`None` — not the classification `"UNRELATED"` the claim predicts (that
sentinel appears only in the exception handler). -/
theorem extract_lead_info_unparseable_counterexample :
    extract_lead_info [{ role := "user", text := "hello" }]
        (some "gemini-2.0-flash-exp") (Except.ok "gemini-2.0-flash-exp")
        (Except.ok "I could not find any structured information here.") =
      ExtractOutcome.ret emptyExtracted ∧
    emptyExtracted.lead_classification = none ∧
    (none : Option String) ≠ some "UNRELATED" :=
  ⟨rfl, rfl, by decide⟩

/-- C6 (amended): extraction parses the model output line-prefix by
line-prefix, tolerating any ordering of the labelled lines (distinct labels
commute) and omitted lines; a model output containing no labelled line
yields the all-null dictionary — name, phone, summary AND classification all
null — without raising.  (The all-null-plus-`"UNRELATED"` fallback exists
only in the exception handler, which as written raises `NameError` because
`logger` is unbound.) -/
theorem extract_lead_info_tolerant_parse :
    (∀ (msgs : List Msg) (m text : String), msgs ≠ [] →
      (∀ l ∈ splitLines (pyStrip text), lineField l = none) →
      extract_lead_info msgs (some m) (Except.ok m) (Except.ok text) =
        ExtractOutcome.ret emptyExtracted) ∧
    (∀ l1 l2 : List String, l1.Perm l2 →
      (∀ x ∈ l1, ∀ y ∈ l1,
        x = y ∨ lineField x = none ∨ lineField x ≠ lineField y) →
      l1.foldl applyLine emptyExtracted = l2.foldl applyLine emptyExtracted) := by
  constructor
  · intro msgs m text hne hnone
    unfold extract_lead_info
    rw [if_neg (by simpa [List.isEmpty_iff] using hne)]
    exact congrArg ExtractOutcome.ret
      (foldl_applyLine_of_all_none _ _ hnone)
  · intro l1 l2 hperm hcomm
    refine hperm.foldl_eq' ?_ emptyExtracted
    intro x hx y hy z
    rcases hcomm x hx y hy with h | h | h
    · subst h; rfl
    · rw [applyLine_eq_of_field_none x h, applyLine_eq_of_field_none x h]
    · exact applyLine_comm x y h z

/-- Witness for C6 (amended): a chatty unlabelled output parses to all-null,
and swapping a `PHONE:` line past a `NAME:` line leaves the parse
unchanged. -/
theorem extract_lead_info_tolerant_parse_witness :
    extract_lead_info [{ role := "user", text := "hi" }] (some "m")
        (Except.ok "m") (Except.ok "just chatting, nothing structured") =
      ExtractOutcome.ret emptyExtracted ∧
    List.foldl applyLine emptyExtracted ["PHONE: 9876543210", "NAME: Ravi"] =
      List.foldl applyLine emptyExtracted ["NAME: Ravi", "PHONE: 9876543210"] :=
  ⟨extract_lead_info_tolerant_parse.1
      [{ role := "user", text := "hi" }] "m"
      "just chatting, nothing structured" (by decide) (by decide),
   extract_lead_info_tolerant_parse.2
      ["PHONE: 9876543210", "NAME: Ravi"] ["NAME: Ravi", "PHONE: 9876543210"]
      (by decide) (by decide)⟩

/-- C9 (counterexample): construction does **not** fail when the tenant's
grounding source cannot be located — `__init__` swallows every file-loading
failure, so with the SDK and an API key present but no knowledge base, no
config and no transcripts, `agent_init` succeeds and `get_agent` caches and
returns the (sourceless) agent instead of surfacing a failure. -/
theorem get_agent_missing_grounding_counterexample :
    agent_init envNoGrounding = Except.ok sourcelessAgent ∧
    isOkE (agent_init envNoGrounding) = true ∧
    get_agent (fun _ => envNoGrounding) [] "rainbow_default" =
      (some sourcelessAgent, [("rainbow_default", sourcelessAgent)]) :=
  ⟨rfl, rfl, rfl⟩

/-- C9 (amended): `get_agent` returns the cached Agent, constructing it on
first access; a failed construction returns `None` and leaves the registry
map unchanged, so the next call re-attempts; after a successful construction
every subsequent call returns the same cached instance.  Construction fails
exactly when the Gemini SDK is unavailable or no truthy API key is supplied —
a missing grounding source does not fail construction. -/
theorem get_agent_cache_spec (envs : String → AgentEnv)
    (agents : List (String × AgentState)) (business_id : String) :
    (∀ a, agents.lookup business_id = some a →
      get_agent envs agents business_id = (some a, agents)) ∧
    (agents.lookup business_id = none →
      (∀ a, agent_init (envs business_id) = Except.ok a →
        get_agent envs agents business_id =
          (some a, (business_id, a) :: agents) ∧
        get_agent envs ((business_id, a) :: agents) business_id =
          (some a, (business_id, a) :: agents)) ∧
      (∀ e, agent_init (envs business_id) = Except.error e →
        get_agent envs agents business_id = (none, agents))) ∧
    (isOkE (agent_init (envs business_id)) = false ↔
      (envs business_id).gemini_available = false ∨
      (pyTruthy (envs business_id).api_key_arg = false ∧
        pyTruthy (envs business_id).env_api_key = false)) := by
  refine ⟨?_, ?_, ?_⟩
  · intro a ha
    unfold get_agent
    rw [ha]
  · intro hmiss
    constructor
    · intro a hok
      constructor
      · unfold get_agent
        rw [hmiss, hok]
      · unfold get_agent
        simp
    · intro e herr
      unfold get_agent
      rw [hmiss, herr]
  · by_cases hg : (envs business_id).gemini_available
    · by_cases ha : pyTruthy (envs business_id).api_key_arg = true
      · simp [agent_init, isOkE, hg, ha]
      · by_cases he : pyTruthy (envs business_id).env_api_key = true
        · simp [agent_init, isOkE, hg, ha, he]
        · simp [agent_init, isOkE, hg, ha, he]
    · simp [agent_init, isOkE, hg]

/-- Witness for C9 (amended): a first call on an empty registry constructs
and caches the agent; the second call returns the same cached instance with
the registry unchanged. -/
theorem get_agent_cache_spec_witness :
    get_agent (fun _ => envNoGrounding) [] "t1" =
      (some sourcelessAgent, [("t1", sourcelessAgent)]) ∧
    get_agent (fun _ => envNoGrounding) [("t1", sourcelessAgent)] "t1" =
      (some sourcelessAgent, [("t1", sourcelessAgent)]) := by
  obtain ⟨h1, h2⟩ :=
    ((get_agent_cache_spec (fun _ => envNoGrounding) [] "t1").2.1 rfl).1
      sourcelessAgent rfl
  exact ⟨h1, h2⟩

end VaniAI
